import Mathlib

/-!
Shallow embedding of `flask_fastspring.py` (klokantech/flask-fastspring).

External collaborators (the `requests` HTTP transport, the `json` stdlib
serializer, the AES block cipher and the OpenSSL `RSA_private_encrypt`
primitive from the `cryptography` backend, and the `urandom` entropy
source) are modelled as explicit function parameters; everything the
repository itself implements is translated definition-by-definition.
-/

/-- JSON values as decoded by `response.json()` / passed to `json.dumps`.
Numbers are restricted to integers, which is all the FastSpring payloads
in this module use (epoch-millisecond timestamps, flags). -/
inductive Json where
  | null : Json
  | bool (b : Bool) : Json
  | num (n : Int) : Json
  | str (s : String) : Json
  | arr (xs : List Json) : Json
  | obj (kvs : List (String × Json)) : Json

/-- Python truthiness of a decoded JSON value (`if item.get('subscription'):`). -/
def Json.truthy : Json → Bool
  | .null => false
  | .bool b => b
  | .num n => n != 0
  | .str s => s ≠ ""
  | .arr xs => !xs.isEmpty
  | .obj kvs => !kvs.isEmpty

/-- An HTTP response as seen through the `requests` library: the request
method and URL it answers, the status code, the raw body text, and the
result of `response.json()` (`none` when the body is not valid JSON). -/
structure Response where
  method : String
  url : String
  status_code : Int
  text : String
  jsonBody : Option Json

/-- `APIError(response)`: the exception stores the whole response, from
which `__str__` reads the method, URL, status code and body text. -/
structure APIError where
  response : Response

/-- `APIError.__str__`: formats the carried method, URL, status code and
raw response body. -/
def APIError.message (e : APIError) : String :=
  "FastSpring API " ++ e.response.method ++ " at " ++ e.response.url ++
    " failed with status code " ++ toString e.response.status_code ++ ":\n" ++
    e.response.text

/-- Python exceptions that the embedded code can raise. -/
inductive PyErr where
  | keyError (k : String) : PyErr
  | typeError : PyErr
  | attributeError : PyErr
  | valueError : PyErr
  | jsonDecodeError : PyErr
  | internalError : PyErr
  | apiError (e : APIError) : PyErr

/-- `d[k]` on a decoded JSON value: key lookup on a dict (raising
`KeyError` when absent), `TypeError` on anything that is not a dict
(string indices must be integers, etc.). -/
def jgetItem (j : Json) (k : String) : Except PyErr Json :=
  match j with
  | .obj kvs =>
    match kvs.lookup k with
    | some v => .ok v
    | none => .error (.keyError k)
  | _ => .error .typeError

/-- `d.get(k)` on a decoded JSON value: returns `null` (Python `None`)
when the key is absent — note a stored JSON `null` also decodes to
Python `None`, so both cases collapse to `.null`.  Raises
`AttributeError` when the receiver is not a dict. -/
def dictGet (j : Json) (k : String) : Except PyErr Json :=
  match j with
  | .obj kvs => .ok ((kvs.lookup k).getD .null)
  | _ => .error .attributeError

/-- A timezone-aware UTC datetime, at millisecond resolution (the
resolution actually produced by `utcfromtimestamp(m / 1000)` for
integer epoch-millisecond inputs). `ms` is milliseconds since epoch. -/
structure Datetime where
  ms : Int
deriving DecidableEq, Repr

/-- `milliseconds_to_datetime(m)`: `None` maps to `None`; an integer is
divided by 1000 and fed to `datetime.utcfromtimestamp`, then tagged with
the UTC timezone — i.e. the absolute instant `m` milliseconds after the
epoch.  A Python `bool` is an `int` subclass, so it is accepted too;
any other argument makes `m / 1000` raise `TypeError`.  The argument is
a decoded JSON value (JSON `null` decodes to Python `None`). -/
def milliseconds_to_datetime : Json → Except PyErr (Option Datetime)
  | .null => .ok none
  | .num n => .ok (some ⟨n⟩)
  | .bool b => .ok (some ⟨if b then 1 else 0⟩)
  | _ => .error .typeError

/-- The HTTP transport collaborator (`requests.request`): maps a method,
a full URL and query parameters to a response. -/
def Http : Type := String → String → List (String × String) → Response

/-- Does `needle` occur as a substring of `hay` (`'result' in data` for a
string body)? -/
def containsSub (hay needle : String) : Bool :=
  (hay.splitOn needle).length > 1

/-- `FastSpring.request`: issue the HTTP request, raise `APIError` when
the status code is not exactly 200, parse the JSON body, raise
`APIError` when the body has a `result` field different from
`"success"`, otherwise return the parsed body.  The `'result' in data`
membership test is a key test on a dict, an element test on a list and
a substring test on a string (the two latter cases then make
`data['result']` raise `TypeError`), and raises `TypeError` outright on
non-containers. -/
def FastSpring.request (http : Http) (method uri : String)
    (params : List (String × String)) : Except PyErr Json :=
  let response := http method ("https://api.fastspring.com" ++ uri) params
  if response.status_code ≠ 200 then .error (.apiError ⟨response⟩)
  else
    match response.jsonBody with
    | none => .error .jsonDecodeError
    | some data =>
      match data with
      | .obj kvs =>
        match kvs.lookup "result" with
        | some (.str s) =>
          if s ≠ "success" then .error (.apiError ⟨response⟩) else .ok data
        | some _ => .error (.apiError ⟨response⟩)
        | none => .ok data
      | .arr xs =>
        if xs.any (fun j => match j with | .str s => s = "result" | _ => false)
          then .error .typeError else .ok data
      | .str s => if containsSub s "result" then .error .typeError else .ok data
      | _ => .error .typeError

/-- `FastSpring.fetch(uri)`: a GET request. -/
def FastSpring.fetch (http : Http) (uri : String) : Except PyErr Json :=
  FastSpring.request http "GET" uri []

/-- `FastSpring.fetch_order(order_id)`. -/
def FastSpring.fetch_order (http : Http) (order_id : String) : Except PyErr Json :=
  FastSpring.fetch http ("/orders/" ++ order_id)

/-- `FastSpring.fetch_subscription(subscription_id)`. -/
def FastSpring.fetch_subscription (http : Http) (subscription_id : String) :
    Except PyErr Json :=
  FastSpring.fetch http ("/subscriptions/" ++ subscription_id)

/-- `FastSpring.cancel_subscription(subscription_id, immediately)`:
DELETE request, with `billingPeriod=0` when cancelling immediately. -/
def FastSpring.cancel_subscription (http : Http) (subscription_id : String)
    (immediately : Bool) : Except PyErr Json :=
  FastSpring.request http "DELETE" ("/subscriptions/" ++ subscription_id)
    (if immediately then [("billingPeriod", "0")] else [])

/-- The mapped columns of `OrderMixin`.  A freshly constructed (never
synchronized) record has every remote-sourced attribute `none`;
`reference`, `invoice` and `is_complete` hold whatever JSON value the
remote sent, `changed` holds the converted datetime, `data` the whole
remote blob. -/
structure OrderRec where
  order_id : String
  reference : Option Json
  invoice : Option Json
  changed : Option Datetime
  is_complete : Option Json
  data : Option Json

/-- The assignment block of `OrderMixin.synchronize`, entered after the
timestamp gate has passed.  Statements execute in source order; an
exception carries the record state at the moment it is raised (the
preceding assignments have already happened). -/
def OrderMixin.assign (data : Json) (changed : Option Datetime) (self : OrderRec) :
    Except (PyErr × OrderRec) (Bool × OrderRec) :=
  match jgetItem data "reference" with
  | .error e => .error (e, self)
  | .ok rv =>
    let self := {self with reference := some rv}
    match jgetItem data "invoiceUrl" with
    | .error e => .error (e, self)
    | .ok iv =>
      let self := {self with invoice := some iv}
      let self := {self with changed := changed}
      match jgetItem data "completed" with
      | .error e => .error (e, self)
      | .ok cv =>
        let self := {self with is_complete := some cv}
        let self := {self with data := some data}
        .ok (true, self)

/-- `OrderMixin.synchronize`: fetch the remote order, convert its
`changed` field, and merge if the local record is strictly older.
`fetched` is the outcome of `fastspring.fetch_order(self.order_id)`.
An error result carries the record state at the moment the exception
propagates. -/
def OrderMixin.synchronize (fetched : Except PyErr Json) (self : OrderRec) :
    Except (PyErr × OrderRec) (Bool × OrderRec) :=
  match fetched with
  | .error e => .error (e, self)
  | .ok data =>
    match jgetItem data "changed" with
    | .error e => .error (e, self)
    | .ok chv =>
      match milliseconds_to_datetime chv with
      | .error e => .error (e, self)
      | .ok changed =>
        match self.changed, changed with
        | some t, some c =>
          if c.ms ≤ t.ms then .ok (false, self)
          else OrderMixin.assign data (some c) self
        | some _, none => .error (.typeError, self)
        | none, _ => OrderMixin.assign data changed self

/-- `OrderMixin.subscription_item`: collect the line items whose
`subscription` key is truthy; return the single candidate, or `None`
unless there is exactly one.  Iterating a non-list `items` value
follows Python semantics (a dict yields its keys, a string its
characters — on which `.get` then raises `AttributeError`). -/
def OrderMixin.collectCandidates : List Json → Except PyErr (List Json)
  | [] => .ok []
  | item :: rest =>
    match dictGet item "subscription" with
    | .error e => .error e
    | .ok v =>
      match OrderMixin.collectCandidates rest with
      | .error e => .error e
      | .ok tail => .ok (if v.truthy then item :: tail else tail)

/-- The iterable view of a JSON value (`for item in ...`). -/
def pyIter : Json → Except PyErr (List Json)
  | .arr xs => .ok xs
  | .obj kvs => .ok (kvs.map (fun kv => Json.str kv.1))
  | .str s => .ok (s.toList.map (fun c => Json.str (String.mk [c])))
  | _ => .error .typeError

/-- `OrderMixin.subscription_item` proper (`self.data['items']` on a
record whose deferred `data` column was never loaded or set raises). -/
def OrderMixin.subscription_item (self : OrderRec) : Except PyErr (Option Json) :=
  match self.data with
  | none => .error .typeError
  | some d =>
    match jgetItem d "items" with
    | .error e => .error e
    | .ok items =>
      match pyIter items with
      | .error e => .error e
      | .ok xs =>
        match OrderMixin.collectCandidates xs with
        | .error e => .error e
        | .ok candidates =>
          if candidates.length ≠ 1 then .ok none
          else .ok candidates.head?

/-- The mapped columns of `SubscriptionMixin`. -/
structure SubscriptionRec where
  subscription_id : String
  begin_at : Option Datetime
  changed : Option Datetime
  next_event : Option Datetime
  next_charge : Option Datetime
  end_at : Option Datetime
  is_active : Option Json
  state : Option Json
  data : Option Json

/-- The assignment block of `SubscriptionMixin.synchronize`, entered
after the timestamp gate has passed; statements in source order, an
exception carries the already-mutated state. -/
def SubscriptionMixin.assign (data : Json) (changed : Option Datetime)
    (self : SubscriptionRec) : Except (PyErr × SubscriptionRec) (Bool × SubscriptionRec) :=
  match jgetItem data "begin" with
  | .error e => .error (e, self)
  | .ok bv =>
    match milliseconds_to_datetime bv with
    | .error e => .error (e, self)
    | .ok bm =>
      let self := {self with begin_at := bm}
      let self := {self with changed := changed}
      match dictGet data "next" with
      | .error e => .error (e, self)
      | .ok nv =>
        match milliseconds_to_datetime nv with
        | .error e => .error (e, self)
        | .ok nm =>
          let self := {self with next_event := nm}
          match dictGet data "nextChargeDate" with
          | .error e => .error (e, self)
          | .ok cv =>
            match milliseconds_to_datetime cv with
            | .error e => .error (e, self)
            | .ok cm =>
              let self := {self with next_charge := cm}
              match dictGet data "end" with
              | .error e => .error (e, self)
              | .ok ev =>
                match milliseconds_to_datetime ev with
                | .error e => .error (e, self)
                | .ok em =>
                  let self := {self with end_at := em}
                  match jgetItem data "active" with
                  | .error e => .error (e, self)
                  | .ok av =>
                    let self := {self with is_active := some av}
                    match jgetItem data "state" with
                    | .error e => .error (e, self)
                    | .ok sv =>
                      let self := {self with state := some sv}
                      let self := {self with data := some data}
                      .ok (true, self)

/-- `SubscriptionMixin.synchronize`: same timestamp gate as the order
variant; `fetched` is the outcome of
`fastspring.fetch_subscription(self.subscription_id)`. -/
def SubscriptionMixin.synchronize (fetched : Except PyErr Json)
    (self : SubscriptionRec) : Except (PyErr × SubscriptionRec) (Bool × SubscriptionRec) :=
  match fetched with
  | .error e => .error (e, self)
  | .ok data =>
    match jgetItem data "changed" with
    | .error e => .error (e, self)
    | .ok chv =>
      match milliseconds_to_datetime chv with
      | .error e => .error (e, self)
      | .ok changed =>
        match self.changed, changed with
        | some t, some c =>
          if c.ms ≤ t.ms then .ok (false, self)
          else SubscriptionMixin.assign data (some c) self
        | some _, none => .error (.typeError, self)
        | none, _ => SubscriptionMixin.assign data changed self

/-- `SubscriptionMixin.cancel`. -/
def SubscriptionMixin.cancel (http : Http) (self : SubscriptionRec)
    (immediately : Bool) : Except PyErr Json :=
  FastSpring.cancel_subscription http self.subscription_id immediately

/-- The standard base64 alphabet (RFC 4648, not URL-safe). -/
def b64chars : List Char :=
  ['A','B','C','D','E','F','G','H','I','J','K','L','M','N','O','P','Q','R',
   'S','T','U','V','W','X','Y','Z','a','b','c','d','e','f','g','h','i','j',
   'k','l','m','n','o','p','q','r','s','t','u','v','w','x','y','z','0','1',
   '2','3','4','5','6','7','8','9','+','/']

/-- Look up a 6-bit value in the base64 alphabet. -/
def b64char (n : Nat) : Char := b64chars.getD n 'A'

/-- Encode a byte list three bytes at a time, with `=` padding and no
line wrapping (the behaviour of `base64.b64encode`). -/
def b64encodeList : List Nat → List Char
  | [] => []
  | [a] => [b64char (a / 4), b64char (a % 4 * 16), '=', '=']
  | [a, b] => [b64char (a / 4), b64char (a % 4 * 16 + b / 16),
               b64char (b % 16 * 4), '=']
  | a :: b :: c :: rest =>
    b64char (a / 4) :: b64char (a % 4 * 16 + b / 16) ::
    b64char (b % 16 * 4 + c / 64) :: b64char (c % 64) :: b64encodeList rest

/-- `base64.b64encode(...).decode()`. -/
def b64encode (bs : List Nat) : String := String.mk (b64encodeList bs)

/-- State of a streaming `PKCS7(128).padder()`: the buffered bytes not
yet emitted (always fewer than one block). -/
structure PadderState where
  buf : List Nat

/-- `padder.update(data)`: buffer the data and emit every complete
16-byte block. -/
def PadderState.update (s : PadderState) (data : List Nat) :
    List Nat × PadderState :=
  let buf := s.buf ++ data
  let n := 16 * (buf.length / 16)
  (buf.take n, ⟨buf.drop n⟩)

/-- `padder.finalize()`: emit the buffered remainder followed by PKCS#7
padding out to a full block (a whole padding block when the remainder
is empty). -/
def PadderState.finalize (s : PadderState) : List Nat :=
  let ps := 16 - s.buf.length
  s.buf ++ List.replicate ps ps

/-- One-shot PKCS#7 padding to a 16-byte boundary. -/
def pkcs7pad (data : List Nat) : List Nat :=
  let ps := 16 - data.length % 16
  data ++ List.replicate ps ps

/-- ECB over an abstract 16-byte block cipher: encrypt each 16-byte
chunk independently and concatenate. -/
def ecb (f : List Nat → List Nat) (l : List Nat) : List Nat :=
  if h : l = [] then []
  else f (l.take 16) ++ ecb f (l.drop 16)
termination_by l.length
decreasing_by
  simp only [List.length_drop]
  have : 0 < l.length := List.length_pos.mpr h
  omega

/-- State of a streaming `Cipher(AES(key), ECB()).encryptor()` with the
key already fixed: the buffered partial block. -/
structure EncState where
  buf : List Nat

/-- `encryptor.update(data)`: encrypt and emit every complete block,
buffer the remainder. -/
def EncState.update (f : List Nat → List Nat) (s : EncState) (data : List Nat) :
    List Nat × EncState :=
  let buf := s.buf ++ data
  let n := 16 * (buf.length / 16)
  (ecb f (buf.take n), ⟨buf.drop n⟩)

/-- `encryptor.finalize()`: ECB accepts no partial final block — a
non-empty buffer raises `ValueError`, otherwise nothing is emitted. -/
def EncState.finalize (s : EncState) : Except PyErr (List Nat) :=
  if s.buf.isEmpty then .ok [] else .error .valueError

/-- `openssl_private_encrypt(key, data, backend)`: allocate a
zero-initialised buffer of `EVP_PKEY_size` bytes (the RSA modulus byte
length), call `RSA_private_encrypt` with `RSA_PKCS1_PADDING` — modelled
by the abstract primitive `rsaPrim`, returning the C `int` result and
the bytes it wrote — then `openssl_assert(result == length)` (raising
`InternalError` on mismatch) and return the whole buffer. -/
def openssl_private_encrypt (length : Nat)
    (rsaPrim : List Nat → Int × List Nat) (data : List Nat) :
    Except PyErr (List Nat) :=
  let r := rsaPrim data
  let buffer := r.2.take length ++ List.replicate (length - r.2.length) 0
  if r.1 = (length : Int) then .ok buffer else .error .internalError

/-- A Python value returned by the secure-payload helpers: a JSON value
(debug passthrough), a text string (base64 output or the debug empty
key) or a byte string (a raw AES key). -/
inductive PyVal where
  | vjson (j : Json) : PyVal
  | vstr (s : String) : PyVal
  | vbytes (b : List Nat) : PyVal

/-- `FastSpring.random_key`: the empty string in debug mode, otherwise
`urandom(16)` — the entropy source is the abstract collaborator. -/
def FastSpring.random_key (urandom : Nat → List Nat) (debug : Bool) : PyVal :=
  if debug then .vstr "" else .vbytes (urandom 16)

/-- `FastSpring.secure_payload(key, payload)`: a passthrough in debug
mode; otherwise serialize with `json.dumps` (the abstract `dumps`
collaborator, composed with UTF-8 encoding), run the streaming PKCS#7
padder and AES-ECB encryptor exactly as the source does
(`update(padder.update(data))`, `update(padder.finalize())`,
`finalize()`), concatenate and base64-encode.  `aes key` is the AES
block permutation under `key`. -/
def FastSpring.secure_payload (dumps : Json → List Nat)
    (aes : List Nat → List Nat → List Nat) (debug : Bool)
    (key : PyVal) (payload : Json) : Except PyErr PyVal :=
  if debug then .ok (.vjson payload)
  else
    match key with
    | .vbytes k =>
      let data := dumps payload
      let (p1, pst) := PadderState.update ⟨[]⟩ data
      let (c1, est) := EncState.update (aes k) ⟨[]⟩ p1
      let p2 := pst.finalize
      let (c2, est) := est.update (aes k) p2
      match est.finalize with
      | .error e => .error e
      | .ok c3 => .ok (.vstr (b64encode (c1 ++ c2 ++ c3)))
    | _ => .error .typeError

/-- `FastSpring.secure_key(key)`: a passthrough in debug mode; otherwise
wrap the AES key with `openssl_private_encrypt` and base64-encode. -/
def FastSpring.secure_key (rsaPrim : List Nat → Int × List Nat)
    (keySize : Nat) (debug : Bool) (key : PyVal) : Except PyErr PyVal :=
  if debug then .ok key
  else
    match key with
    | .vbytes k =>
      match openssl_private_encrypt keySize rsaPrim k with
      | .error e => .error e
      | .ok w => .ok (.vstr (b64encode w))
    | _ => .error .typeError

/-- `FastSpring.secure(payload)`: generate a key, secure the payload
under it, wrap the key; return the `{payload, key}` pair. -/
def FastSpring.secure (dumps : Json → List Nat)
    (aes : List Nat → List Nat → List Nat)
    (rsaPrim : List Nat → Int × List Nat) (keySize : Nat)
    (urandom : Nat → List Nat) (debug : Bool) (payload : Json) :
    Except PyErr (PyVal × PyVal) :=
  let key := FastSpring.random_key urandom debug
  match FastSpring.secure_payload dumps aes debug key payload with
  | .error e => .error e
  | .ok p =>
    match FastSpring.secure_key rsaPrim keySize debug key with
    | .error e => .error e
    | .ok k => .ok (p, k)

/-- The application configuration consumed by `init_app` (`app.debug`
and the `FASTSPRING_*` options; `private_key` is the key file path). -/
structure App where
  debug : Bool
  storefront : String
  username : String
  password : String
  access_key : Option String
  private_key : Option String

/-- The attributes of a `FastSpring` extension object.  `K` is the type
of loaded private keys (opaque to this module); `openssl` records
whether the OpenSSL backend was imported. -/
structure FastSpringState (K : Type) where
  debug : Option Bool
  storefront : Option String
  username : Option String
  password : Option String
  openssl : Option Unit
  access_key : Option String
  private_key : Option K

/-- `FastSpring.__init__` without an app: every attribute `None`. -/
def FastSpring.new (K : Type) : FastSpringState K :=
  ⟨none, none, none, none, none, none, none⟩

/-- `FastSpring.init_app(app)`: copy the debug flag and configuration;
in debug mode return before touching the private key, otherwise load it
from the configured path with `load_pem_private_key` (the abstract
`loadKey` collaborator). -/
def FastSpring.init_app {K : Type} (loadKey : String → K) (app : App)
    (self : FastSpringState K) : FastSpringState K :=
  let self := {self with
    debug := some app.debug,
    storefront := some app.storefront,
    username := some app.username,
    password := some app.password,
    access_key := app.access_key}
  if app.debug then self
  else
    match app.private_key with
    | none => self
    | some path =>
      {self with openssl := some (), private_key := some (loadKey path)}

/-- A 201 response whose JSON body even carries the explicit success
indicator. -/
def resp201 : Response :=
  ⟨"GET", "https://api.fastspring.com/orders/o1", 201, "created",
    some (.obj [("result", .str "success")])⟩

/-- A plain 200 success response. -/
def respOK : Response :=
  ⟨"GET", "https://api.fastspring.com/orders/o1", 200, "ok",
    some (.obj [("result", .str "success")])⟩

/-- The record produced by a successful order merge. -/
def OrderRec.updated (self : OrderRec) (data rv iv cv : Json) (c : Int) : OrderRec :=
  { self with
    reference := some rv,
    invoice := some iv,
    changed := some (Datetime.mk c),
    is_complete := some cv,
    data := some data }

/-- The record produced by a successful subscription merge. -/
def SubscriptionRec.updated (self : SubscriptionRec) (data : Json)
    (bm nm cm em : Option Datetime) (av sv : Json) (c : Int) : SubscriptionRec :=
  { self with
    begin_at := bm,
    changed := some (Datetime.mk c),
    next_event := nm,
    next_charge := cm,
    end_at := em,
    is_active := some av,
    state := some sv,
    data := some data }


/-- Is a line item flagged as subscription-type (its `subscription` key
truthy)?  Matches the loop condition of `subscription_item`. -/
def isSubscriptionFlagged : Json → Bool
  | .obj kvs => ((kvs.lookup "subscription").getD .null).truthy
  | _ => false

/-- Ordering on nullable datetimes used to state the watermark
invariant: anything is at least an unset timestamp, and set timestamps
compare by instant; a set timestamp never goes back to unset. -/
def dtLE : Option Datetime → Option Datetime → Prop
  | none, _ => True
  | some x, some y => x.ms ≤ y.ms
  | some _, none => False

/-- The record state after one `OrderMixin.synchronize` call, whether it
returns or raises (the exception propagates to the caller, the record
keeps the state it had when the exception was raised). -/
def applyOrder (fetched : Except PyErr Json) (r : OrderRec) : OrderRec :=
  match OrderMixin.synchronize fetched r with
  | .ok (_, r2) => r2
  | .error (_, r2) => r2

/-- The record state after a sequence of `synchronize` calls. -/
def chainOrder (r : OrderRec) (l : List (Except PyErr Json)) : OrderRec :=
  l.foldl (fun r2 j => applyOrder j r2) r

/-- The record state after one `SubscriptionMixin.synchronize` call. -/
def applySub (fetched : Except PyErr Json) (s : SubscriptionRec) : SubscriptionRec :=
  match SubscriptionMixin.synchronize fetched s with
  | .ok (_, s2) => s2
  | .error (_, s2) => s2

/-- The record state after a sequence of `synchronize` calls. -/
def chainSub (s : SubscriptionRec) (l : List (Except PyErr Json)) : SubscriptionRec :=
  l.foldl (fun s2 j => applySub j s2) s

/-- A well-formed remote order snapshot (changed at 1000 ms). -/
def orderJson1 : Json :=
  .obj [("changed", .num 1000), ("reference", .str "ref1"),
    ("invoiceUrl", .str "inv1"), ("completed", .bool true)]

/-- A well-formed remote subscription snapshot (changed at 1500 ms,
with `next`, `nextChargeDate` and `end` absent). -/
def subJson1 : Json :=
  .obj [("changed", .num 1500), ("begin", .num 100),
    ("active", .bool true), ("state", .str "active")]

/-- A never-synchronized order record. -/
def order0 : OrderRec := ⟨"o1", none, none, none, none, none⟩

/-- An order record whose local watermark (2000 ms) is already ahead of
`orderJson1`. -/
def orderNewer : OrderRec := ⟨"o1", none, none, some ⟨2000⟩, none, none⟩

/-- A never-synchronized subscription record. -/
def sub0 : SubscriptionRec := ⟨"s1", none, none, none, none, none, none, none, none⟩

/-- A line item flagged as a subscription, and one that is not. -/
def itemSub : Json := .obj [("subscription", .str "sub1")]

/-- A plain (non-subscription) line item. -/
def itemPlain : Json := .obj [("product", .str "p")]

/-- The remote instant a `synchronize` call would extract from its
fetch result: propagate a fetch error, read the mandatory `changed`
key, convert from epoch milliseconds. -/
def remoteInstant (fetched : Except PyErr Json) : Except PyErr (Option Datetime) :=
  match fetched with
  | .error e => .error e
  | .ok data =>
    match jgetItem data "changed" with
    | .error e => .error e
    | .ok chv => milliseconds_to_datetime chv


theorem ecb_nil (f : List Nat → List Nat) : ecb f [] = [] := by
  rw [ecb]
  simp

theorem ecb_eq (f : List Nat → List Nat) (l : List Nat) (h : l ≠ []) :
    ecb f l = f (l.take 16) ++ ecb f (l.drop 16) := by
  rw [ecb]
  simp [h]

theorem ecb_append (f : List Nat → List Nat) (a b : List Nat)
    (h : 16 ∣ a.length) : ecb f (a ++ b) = ecb f a ++ ecb f b := by
  suffices H : ∀ n (a b : List Nat), a.length ≤ n → 16 ∣ a.length →
      ecb f (a ++ b) = ecb f a ++ ecb f b from H a.length a b le_rfl h
  intro n
  induction n with
  | zero =>
    intro a b hlen _
    have : a = [] := List.eq_nil_of_length_eq_zero (Nat.le_zero.mp hlen)
    subst this
    simp [ecb_nil]
  | succ n ih =>
    intro a b hlen hdvd
    by_cases ha : a = []
    · subst ha
      simp [ecb_nil]
    · have hpos : 0 < a.length := List.length_pos.mpr ha
      have h16 : 16 ≤ a.length := Nat.le_of_dvd hpos hdvd
      by_cases hb : b = []
      · subst hb
        simp [ecb_nil]
      · have hab : a ++ b ≠ [] := by simp [ha]
        rw [ecb_eq f (a ++ b) hab, ecb_eq f a ha]
        rw [List.take_append_of_le_length h16, List.drop_append_of_le_length h16]
        rw [List.append_assoc]
        congr 1
        have hdlen : (a.drop 16).length = a.length - 16 := List.length_drop 16 a
        have hdvd' : 16 ∣ (a.drop 16).length := by
          rw [hdlen]
          exact (Nat.dvd_sub' hdvd ⟨1, by norm_num⟩)
        have hle : (a.drop 16).length ≤ n := by omega
        exact ih (a.drop 16) b hle hdvd'

theorem ecb_of_length_multiple (f : List Nat → List Nat) (l : List Nat) :
    ecb f (l.take (16 * (l.length / 16))) ++ ecb f (l.drop (16 * (l.length / 16))) =
      ecb f l := by
  have hle : 16 * (l.length / 16) ≤ l.length := by
    have := Nat.div_add_mod l.length 16
    omega
  have hdvd : 16 ∣ (l.take (16 * (l.length / 16))).length := by
    simp only [List.length_take, Nat.min_eq_left hle]
    exact ⟨l.length / 16, rfl⟩
  rw [← ecb_append f _ _ hdvd, List.take_append_drop]

theorem enc_update_full (f : List Nat → List Nat) (s : EncState) (d : List Nat)
    (hs : s.buf = []) (hd : 16 ∣ d.length) :
    EncState.update f s d = (ecb f d, ⟨[]⟩) := by
  obtain ⟨buf⟩ := s
  simp only at hs
  subst hs
  obtain ⟨k, hk⟩ := hd
  simp only [EncState.update, List.nil_append]
  have hdiv : 16 * (d.length / 16) = d.length := by omega
  rw [hdiv, List.take_length, List.drop_length]

theorem padder_split (data : List Nat) :
    (PadderState.update ⟨[]⟩ data).1 ++ (PadderState.update ⟨[]⟩ data).2.finalize
        = pkcs7pad data
      ∧ 16 ∣ (PadderState.update ⟨[]⟩ data).1.length
      ∧ 16 ∣ ((PadderState.update ⟨[]⟩ data).2.finalize).length := by
  have hmod := Nat.div_add_mod data.length 16
  have hmodlt : data.length % 16 < 16 := Nat.mod_lt _ (by norm_num)
  simp only [PadderState.update, PadderState.finalize, List.nil_append]
  have hle : 16 * (data.length / 16) ≤ data.length := by omega
  have hdrop : (data.drop (16 * (data.length / 16))).length = data.length % 16 := by
    simp only [List.length_drop]
    omega
  have htake : (data.take (16 * (data.length / 16))).length
      = 16 * (data.length / 16) := by
    simp only [List.length_take]
    omega
  refine ⟨?_, ?_, ?_⟩
  · rw [← List.append_assoc, List.take_append_drop, pkcs7pad, hdrop]
  · rw [htake]
    exact ⟨data.length / 16, rfl⟩
  · simp only [List.length_append, List.length_replicate, hdrop]
    exact ⟨1, by omega⟩

theorem pipeline_eq (f : List Nat → List Nat) (data : List Nat) :
    ((EncState.update f ⟨[]⟩ (PadderState.update ⟨[]⟩ data).1).1 ++
      ((EncState.update f ⟨[]⟩ (PadderState.update ⟨[]⟩ data).1).2.update f
        (PadderState.update ⟨[]⟩ data).2.finalize).1,
     ((EncState.update f ⟨[]⟩ (PadderState.update ⟨[]⟩ data).1).2.update f
        (PadderState.update ⟨[]⟩ data).2.finalize).2.buf) =
    (ecb f (pkcs7pad data), []) := by
  obtain ⟨hsum, h1, h2⟩ := padder_split data
  rw [enc_update_full f ⟨[]⟩ _ rfl h1]
  simp only
  rw [enc_update_full f ⟨[]⟩ _ rfl h2]
  simp only
  rw [← ecb_append f _ _ h1, hsum]

theorem secure_payload_nondebug (dumps : Json → List Nat)
    (aes : List Nat → List Nat → List Nat) (k : List Nat) (payload : Json) :
    FastSpring.secure_payload dumps aes false (.vbytes k) payload =
      .ok (.vstr (b64encode (ecb (aes k) (pkcs7pad (dumps payload))))) := by
  have h := pipeline_eq (aes k) (dumps payload)
  have h1 := congrArg Prod.fst h
  have h2 := congrArg Prod.snd h
  simp only at h1 h2
  unfold FastSpring.secure_payload
  simp only [Bool.false_eq_true, if_false, EncState.finalize, h2,
    List.isEmpty_nil, if_true, List.append_nil, List.append_assoc] at h1 ⊢
  rw [← h1]

/-- C2: with debug off, `secure(payload)` returns a pair whose `payload`
component is the standard base64 encoding of the AES-ECB encryption,
under the 16 fresh `urandom` bytes, of the PKCS#7-padded (16-byte
blocks) UTF-8 JSON serialization of the payload, and whose `key`
component is the base64 encoding of the `RSA_private_encrypt`
(PKCS#1 v1.5, private-encrypt direction) wrapping of those same key
bytes — the streaming padder/encryptor pipeline of the source is
exactly the one-shot pad-then-encrypt composition. -/
theorem secure_composition (dumps : Json → List Nat)
    (aes : List Nat → List Nat → List Nat)
    (rsaPrim : List Nat → Int × List Nat) (keySize : Nat)
    (urandom : Nat → List Nat) (payload : Json) :
    FastSpring.secure dumps aes rsaPrim keySize urandom false payload =
      (openssl_private_encrypt keySize rsaPrim (urandom 16)).map (fun w =>
        (PyVal.vstr (b64encode (ecb (aes (urandom 16)) (pkcs7pad (dumps payload)))),
         PyVal.vstr (b64encode w))) := by
  unfold FastSpring.secure FastSpring.random_key FastSpring.secure_key
  simp only [Bool.false_eq_true, if_false]
  rw [secure_payload_nondebug]
  cases h : openssl_private_encrypt keySize rsaPrim (urandom 16) <;>
    simp [Except.map, h]

/-- C7: `openssl_private_encrypt` either succeeds with an output of
exactly `EVP_PKEY_size` bytes (the RSA modulus byte length), or — when
the backend primitive reports any other written length —
`openssl_assert` turns the mismatch into an `InternalError`, the
unrecoverable assertion failure, never a normal return. -/
theorem openssl_private_encrypt_length (length : Nat)
    (rsaPrim : List Nat → Int × List Nat) (data : List Nat) :
    (∀ out, openssl_private_encrypt length rsaPrim data = .ok out →
      out.length = length)
  ∧ ((rsaPrim data).1 ≠ (length : Int) →
      openssl_private_encrypt length rsaPrim data = .error .internalError) := by
  constructor
  · intro out hout
    unfold openssl_private_encrypt at hout
    simp only at hout
    split at hout
    · cases hout
      simp only [List.length_append, List.length_take, List.length_replicate]
      omega
    · cases hout
  · intro h
    unfold openssl_private_encrypt
    simp [h]

theorem openssl_private_encrypt_length_witness :
    ([1, 2, 3, 4] : List Nat).length = 4
  ∧ openssl_private_encrypt 4 (fun _ => ((3 : Int), [1, 2, 3])) [9]
      = .error .internalError :=
  ⟨(openssl_private_encrypt_length 4 (fun _ => ((4 : Int), [1, 2, 3, 4])) [9]).1
      [1, 2, 3, 4] rfl,
   (openssl_private_encrypt_length 4 (fun _ => ((3 : Int), [1, 2, 3])) [9]).2
      (by decide)⟩

/-- C9: with the host application's debug flag set, `init_app` skips the
OpenSSL backend and private-key loading entirely (the loader is never
consulted), `random_key` returns the empty string instead of 16 random
bytes, `secure_payload` and `secure_key` pass their inputs through
unchanged, and `secure` returns the plaintext payload paired with the
empty key. -/
theorem debug_mode_bypasses_encryption {K : Type}
    (loadOne loadTwo : String → K) (app : App) (urandom : Nat → List Nat)
    (dumps : Json → List Nat) (aes : List Nat → List Nat → List Nat)
    (rsaPrim : List Nat → Int × List Nat) (keySize : Nat)
    (key : PyVal) (payload : Json) :
    (FastSpring.init_app loadOne {app with debug := true}
        (FastSpring.new K)).private_key = none
  ∧ (FastSpring.init_app loadOne {app with debug := true}
        (FastSpring.new K)).openssl = none
  ∧ FastSpring.init_app loadOne {app with debug := true} (FastSpring.new K)
      = FastSpring.init_app loadTwo {app with debug := true} (FastSpring.new K)
  ∧ FastSpring.random_key urandom true = .vstr ""
  ∧ FastSpring.secure_payload dumps aes true key payload = .ok (.vjson payload)
  ∧ FastSpring.secure_key rsaPrim keySize true key = .ok key
  ∧ FastSpring.secure dumps aes rsaPrim keySize urandom true payload
      = .ok (.vjson payload, .vstr "") :=
  ⟨rfl, rfl, rfl, rfl, rfl, rfl, rfl⟩

/-- C3 counterexample: the code tests `status_code != 200`, not
"non-2xx" — a 201 response with a success body still raises `APIError`,
although the claim says a 2xx status without a failure indicator
succeeds. -/
theorem request_status_201_counterexample :
    FastSpring.request (fun _ _ _ => resp201) "GET" "/orders/o1" []
        = .error (.apiError ⟨resp201⟩)
  ∧ (200 ≤ resp201.status_code ∧ resp201.status_code < 300)
  ∧ resp201.jsonBody = some (.obj [("result", .str "success")]) := by
  refine ⟨rfl, ⟨?_, ?_⟩, rfl⟩ <;> norm_num [resp201]

/-- C3 amended: `request` (through which `fetch_order`,
`fetch_subscription` and `cancel_subscription` all go) raises `APIError`
iff the status code differs from exactly 200, or the 200 response's
JSON-object body has a `result` field whose value is not the string
`"success"`; the error always carries the full response (method, URL,
status code, raw body); with status 200 and no failure indicator the
parsed body is returned. -/
theorem request_apierror_iff (http : Http) (m u : String)
    (p : List (String × String)) (resp : Response)
    (hr : http m ("https://api.fastspring.com" ++ u) p = resp) :
    (FastSpring.request http m u p = .error (.apiError ⟨resp⟩) ↔
      (resp.status_code ≠ 200 ∨
        ∃ kvs v, resp.jsonBody = some (.obj kvs) ∧
          kvs.lookup "result" = some v ∧ v ≠ .str "success"))
  ∧ (∀ e, FastSpring.request http m u p = .error (.apiError e) →
      e.response = resp)
  ∧ (∀ kvs, resp.status_code = 200 → resp.jsonBody = some (.obj kvs) →
      (∀ v, kvs.lookup "result" = some v → v = .str "success") →
      FastSpring.request http m u p = .ok (.obj kvs))
  ∧ (∀ oid, FastSpring.fetch_order http oid
      = FastSpring.request http "GET" ("/orders/" ++ oid) [])
  ∧ (∀ sid, FastSpring.fetch_subscription http sid
      = FastSpring.request http "GET" ("/subscriptions/" ++ sid) [])
  ∧ (∀ sid, FastSpring.cancel_subscription http sid true
      = FastSpring.request http "DELETE" ("/subscriptions/" ++ sid)
          [("billingPeriod", "0")]) := by
  refine ⟨?_, ?_, ?_, fun _ => rfl, fun _ => rfl, fun _ => rfl⟩
  · unfold FastSpring.request
    simp only [hr]
    by_cases h200 : resp.status_code = 200
    · rcases hb : resp.jsonBody with _ | data
      · simp [h200, hb]
      · cases data with
        | obj kvs =>
          rcases hl : kvs.lookup "result" with _ | v
          · simp [h200, hb, hl]
          · cases v with
            | str s =>
              by_cases hs : s = "success"
              · subst hs
                simp [h200, hb, hl]
              · simp [h200, hb, hl, hs]
            | null => simp [h200, hb, hl]
            | bool b => simp [h200, hb, hl]
            | num n => simp [h200, hb, hl]
            | arr xs => simp [h200, hb, hl]
            | obj kvs2 => simp [h200, hb, hl]
        | null => simp [h200, hb]
        | bool b => simp [h200, hb]
        | num n => simp [h200, hb]
        | str s =>
          by_cases hc : containsSub s "result" <;> simp [h200, hb, hc]
        | arr xs =>
          by_cases ha : xs.any
              (fun j => match j with | .str s => s = "result" | _ => false) <;>
            simp [h200, hb, ha]
    · simp [h200]
  · intro e he
    unfold FastSpring.request at he
    simp only [hr] at he
    by_cases h200 : resp.status_code = 200
    · rcases hb : resp.jsonBody with _ | data
      · simp [h200, hb] at he
      · cases data with
        | obj kvs =>
          rcases hl : kvs.lookup "result" with _ | v
          · simp [h200, hb, hl] at he
          · cases v with
            | str s =>
              by_cases hs : s = "success"
              · subst hs
                simp [h200, hb, hl] at he
              · simp [h200, hb, hl, hs] at he
                simp [← he]
            | null =>
              simp [h200, hb, hl] at he
              simp [← he]
            | bool b =>
              simp [h200, hb, hl] at he
              simp [← he]
            | num n =>
              simp [h200, hb, hl] at he
              simp [← he]
            | arr xs =>
              simp [h200, hb, hl] at he
              simp [← he]
            | obj kvs2 =>
              simp [h200, hb, hl] at he
              simp [← he]
        | null => simp [h200, hb] at he
        | bool b => simp [h200, hb] at he
        | num n => simp [h200, hb] at he
        | str s =>
          by_cases hc : containsSub s "result" <;> simp [h200, hb, hc] at he
        | arr xs =>
          by_cases ha : xs.any
              (fun j => match j with | .str s => s = "result" | _ => false) <;>
            simp [h200, hb, ha] at he
    · simp [h200] at he
      simp [← he]
  · intro kvs h200 hb hres
    unfold FastSpring.request
    simp only [hr]
    rcases hl : kvs.lookup "result" with _ | v
    · simp [h200, hb, hl]
    · have := hres v hl
      subst this
      simp [h200, hb, hl]

theorem request_apierror_iff_witness :
    FastSpring.request (fun _ _ _ => respOK) "GET" "/orders/o1" []
      = .ok (.obj [("result", .str "success")]) :=
  (request_apierror_iff (fun _ _ _ => respOK) "GET" "/orders/o1" [] respOK
      rfl).2.2.1 [("result", .str "success")] rfl rfl
    (fun _ hv => (Option.some.inj hv).symm)

/-- Unfolding equation for the conversion at an integer input. -/
theorem ms_num (n : Int) :
    milliseconds_to_datetime (.num n) = .ok (some (Datetime.mk n)) := rfl

theorem order_sync_eq (self : OrderRec) (data : Json) (c : Int) (rv iv cv : Json)
    (hch : jgetItem data "changed" = .ok (.num c))
    (href : jgetItem data "reference" = .ok rv)
    (hinv : jgetItem data "invoiceUrl" = .ok iv)
    (hcomp : jgetItem data "completed" = .ok cv) :
    OrderMixin.synchronize (.ok data) self =
      .ok (match self.changed with
        | some t =>
          if c ≤ t.ms then (false, self)
          else (true, self.updated data rv iv cv c)
        | none => (true, self.updated data rv iv cv c)) := by
  unfold OrderMixin.synchronize OrderMixin.assign
  simp only [hch, ms_num]
  cases hc : self.changed with
  | none => simp [href, hinv, hcomp, OrderRec.updated]
  | some t =>
    by_cases hle : c ≤ t.ms
    · simp [hle]
    · simp [hle, href, hinv, hcomp, OrderRec.updated]

theorem sub_sync_eq (self : SubscriptionRec) (data : Json) (c : Int)
    (bv nv ev2 av sv : Json) (bm nm cm em : Option Datetime) (cv2 : Json)
    (hch : jgetItem data "changed" = .ok (.num c))
    (hbeg : jgetItem data "begin" = .ok bv)
    (hbm : milliseconds_to_datetime bv = .ok bm)
    (hnext : dictGet data "next" = .ok nv)
    (hnm : milliseconds_to_datetime nv = .ok nm)
    (hcharge : dictGet data "nextChargeDate" = .ok cv2)
    (hcm : milliseconds_to_datetime cv2 = .ok cm)
    (hend : dictGet data "end" = .ok ev2)
    (hem : milliseconds_to_datetime ev2 = .ok em)
    (hact : jgetItem data "active" = .ok av)
    (hstate : jgetItem data "state" = .ok sv) :
    SubscriptionMixin.synchronize (.ok data) self =
      .ok (match self.changed with
        | some t =>
          if c ≤ t.ms then (false, self)
          else (true, self.updated data bm nm cm em av sv c)
        | none => (true, self.updated data bm nm cm em av sv c)) := by
  unfold SubscriptionMixin.synchronize SubscriptionMixin.assign
  simp only [hch, ms_num]
  cases hc : self.changed with
  | none =>
    simp [hbeg, hbm, hnext, hnm, hcharge, hcm, hend, hem, hact, hstate,
      SubscriptionRec.updated]
  | some t =>
    by_cases hle : c ≤ t.ms
    · simp [hle]
    · simp [hle, hbeg, hbm, hnext, hnm, hcharge, hcm, hend, hem, hact, hstate,
        SubscriptionRec.updated]

/-- C1: both `synchronize` methods convert the remote `changed`
epoch-millisecond value to an absolute UTC instant; when the local
`changed` timestamp is set and is greater than or equal to that
instant the call returns `false` and leaves every field untouched,
otherwise the order variant overwrites `reference`, `invoice`
(invoice URL), `changed`, `is_complete` and `data` (raw remote JSON)
from the remote snapshot and returns `true`, and the subscription
variant passes the same timestamp gate. -/
theorem order_and_subscription_synchronize_gate
    (self : OrderRec) (data : Json) (c : Int) (rv iv cv : Json)
    (hch : jgetItem data "changed" = .ok (.num c))
    (href : jgetItem data "reference" = .ok rv)
    (hinv : jgetItem data "invoiceUrl" = .ok iv)
    (hcomp : jgetItem data "completed" = .ok cv)
    (sub : SubscriptionRec) (sdata : Json) (c2 : Int)
    (bv nv ev2 av sv : Json) (bm nm cm em : Option Datetime) (cv2 : Json)
    (hch2 : jgetItem sdata "changed" = .ok (.num c2))
    (hbeg : jgetItem sdata "begin" = .ok bv)
    (hbm : milliseconds_to_datetime bv = .ok bm)
    (hnext : dictGet sdata "next" = .ok nv)
    (hnm : milliseconds_to_datetime nv = .ok nm)
    (hcharge : dictGet sdata "nextChargeDate" = .ok cv2)
    (hcm : milliseconds_to_datetime cv2 = .ok cm)
    (hend : dictGet sdata "end" = .ok ev2)
    (hem : milliseconds_to_datetime ev2 = .ok em)
    (hact : jgetItem sdata "active" = .ok av)
    (hstate : jgetItem sdata "state" = .ok sv) :
    OrderMixin.synchronize (.ok data) self =
      .ok (match self.changed with
        | some t =>
          if c ≤ t.ms then (false, self)
          else (true, self.updated data rv iv cv c)
        | none => (true, self.updated data rv iv cv c))
  ∧ SubscriptionMixin.synchronize (.ok sdata) sub =
      .ok (match sub.changed with
        | some t =>
          if c2 ≤ t.ms then (false, sub)
          else (true, sub.updated sdata bm nm cm em av sv c2)
        | none => (true, sub.updated sdata bm nm cm em av sv c2)) :=
  ⟨order_sync_eq self data c rv iv cv hch href hinv hcomp,
   sub_sync_eq sub sdata c2 bv nv ev2 av sv bm nm cm em cv2 hch2 hbeg hbm
     hnext hnm hcharge hcm hend hem hact hstate⟩

theorem order_and_subscription_synchronize_gate_witness :
    OrderMixin.synchronize (.ok orderJson1) order0 =
      .ok (match order0.changed with
        | some t =>
          if (1000 : Int) ≤ t.ms then (false, order0)
          else (true, order0.updated orderJson1 (.str "ref1") (.str "inv1")
            (.bool true) 1000)
        | none => (true, order0.updated orderJson1 (.str "ref1") (.str "inv1")
            (.bool true) 1000))
  ∧ SubscriptionMixin.synchronize (.ok subJson1) sub0 =
      .ok (match sub0.changed with
        | some t =>
          if (1500 : Int) ≤ t.ms then (false, sub0)
          else (true, sub0.updated subJson1 (some ⟨100⟩) none none none
            (.bool true) (.str "active") 1500)
        | none => (true, sub0.updated subJson1 (some ⟨100⟩) none none none
            (.bool true) (.str "active") 1500)) :=
  order_and_subscription_synchronize_gate order0 orderJson1 1000
    (.str "ref1") (.str "inv1") (.bool true) rfl rfl rfl rfl
    sub0 subJson1 1500 (.num 100) .null .null (.bool true) (.str "active")
    (some ⟨100⟩) none none none .null
    rfl rfl rfl rfl rfl rfl rfl rfl rfl rfl rfl

/-- C4 counterexample: on a record whose local `changed` watermark
(2000 ms) is already ahead of the snapshot (1000 ms), the FIRST
application of `synchronize` already returns `false` — the claim's
"returns true on the first application" does not hold for every
record/snapshot pair. -/
theorem synchronize_twice_counterexample :
    OrderMixin.synchronize (.ok orderJson1) orderNewer = .ok (false, orderNewer) := rfl

/-- C4 amended: applying the same snapshot twice, the second
application always returns `false` and leaves the record exactly as
the first left it; the first application returns `true` precisely when
the snapshot is strictly newer than the local watermark (or the
watermark is unset), and `false` otherwise.  Both record kinds. -/
theorem synchronize_twice_amended
    (self : OrderRec) (data : Json) (c : Int) (rv iv cv : Json)
    (hch : jgetItem data "changed" = .ok (.num c))
    (href : jgetItem data "reference" = .ok rv)
    (hinv : jgetItem data "invoiceUrl" = .ok iv)
    (hcomp : jgetItem data "completed" = .ok cv)
    (b1 : Bool) (r1 : OrderRec)
    (h1 : OrderMixin.synchronize (.ok data) self = .ok (b1, r1))
    (sub : SubscriptionRec) (sdata : Json) (c2 : Int)
    (bv nv ev2 av sv : Json) (bm nm cm em : Option Datetime) (cv2 : Json)
    (hch2 : jgetItem sdata "changed" = .ok (.num c2))
    (hbeg : jgetItem sdata "begin" = .ok bv)
    (hbm : milliseconds_to_datetime bv = .ok bm)
    (hnext : dictGet sdata "next" = .ok nv)
    (hnm : milliseconds_to_datetime nv = .ok nm)
    (hcharge : dictGet sdata "nextChargeDate" = .ok cv2)
    (hcm : milliseconds_to_datetime cv2 = .ok cm)
    (hend : dictGet sdata "end" = .ok ev2)
    (hem : milliseconds_to_datetime ev2 = .ok em)
    (hact : jgetItem sdata "active" = .ok av)
    (hstate : jgetItem sdata "state" = .ok sv)
    (bs1 : Bool) (s1 : SubscriptionRec)
    (hs1 : SubscriptionMixin.synchronize (.ok sdata) sub = .ok (bs1, s1)) :
    (OrderMixin.synchronize (.ok data) r1 = .ok (false, r1)
      ∧ (b1 = true ↔ (self.changed = none ∨ ∃ t, self.changed = some t ∧ t.ms < c)))
  ∧ (SubscriptionMixin.synchronize (.ok sdata) s1 = .ok (false, s1)
      ∧ (bs1 = true ↔ (sub.changed = none ∨ ∃ t, sub.changed = some t ∧ t.ms < c2))) := by
  constructor
  · rw [order_sync_eq self data c rv iv cv hch href hinv hcomp] at h1
    rw [order_sync_eq r1 data c rv iv cv hch href hinv hcomp]
    rcases hc : self.changed with _ | t
    · rw [hc] at h1
      simp only [Except.ok.injEq, Prod.mk.injEq] at h1
      obtain ⟨hb, hr⟩ := h1
      constructor
      · rw [← hr]
        simp [OrderRec.updated]
      · simp [← hb, hc]
    · rw [hc] at h1
      by_cases hle : c ≤ t.ms
      · simp only [hle, if_true, Except.ok.injEq, Prod.mk.injEq] at h1
        obtain ⟨hb, hr⟩ := h1
        constructor
        · rw [← hr, hc]
          simp [hle]
        · rw [← hb]
          simp only [Bool.false_eq_true, false_iff]
          push_neg
          refine ⟨by simp, ?_⟩
          intro t2 ht2
          cases ht2
          omega
      · simp only [hle, if_false, Except.ok.injEq, Prod.mk.injEq] at h1
        obtain ⟨hb, hr⟩ := h1
        constructor
        · rw [← hr]
          simp [OrderRec.updated]
        · rw [← hb]
          simp only [true_iff]
          exact Or.inr ⟨t, rfl, by omega⟩
  · rw [sub_sync_eq sub sdata c2 bv nv ev2 av sv bm nm cm em cv2 hch2 hbeg hbm
      hnext hnm hcharge hcm hend hem hact hstate] at hs1
    rw [sub_sync_eq s1 sdata c2 bv nv ev2 av sv bm nm cm em cv2 hch2 hbeg hbm
      hnext hnm hcharge hcm hend hem hact hstate]
    rcases hc : sub.changed with _ | t
    · rw [hc] at hs1
      simp only [Except.ok.injEq, Prod.mk.injEq] at hs1
      obtain ⟨hb, hr⟩ := hs1
      constructor
      · rw [← hr]
        simp [SubscriptionRec.updated]
      · simp [← hb, hc]
    · rw [hc] at hs1
      by_cases hle : c2 ≤ t.ms
      · simp only [hle, if_true, Except.ok.injEq, Prod.mk.injEq] at hs1
        obtain ⟨hb, hr⟩ := hs1
        constructor
        · rw [← hr, hc]
          simp [hle]
        · rw [← hb]
          simp only [Bool.false_eq_true, false_iff]
          push_neg
          refine ⟨by simp, ?_⟩
          intro t2 ht2
          cases ht2
          omega
      · simp only [hle, if_false, Except.ok.injEq, Prod.mk.injEq] at hs1
        obtain ⟨hb, hr⟩ := hs1
        constructor
        · rw [← hr]
          simp [SubscriptionRec.updated]
        · rw [← hb]
          simp only [true_iff]
          exact Or.inr ⟨t, rfl, by omega⟩

theorem synchronize_twice_amended_witness :
    (OrderMixin.synchronize (.ok orderJson1)
        (order0.updated orderJson1 (.str "ref1") (.str "inv1") (.bool true) 1000)
      = .ok (false, order0.updated orderJson1 (.str "ref1") (.str "inv1")
          (.bool true) 1000)
      ∧ (true = true ↔ (order0.changed = none ∨
          ∃ t, order0.changed = some t ∧ t.ms < 1000)))
  ∧ (SubscriptionMixin.synchronize (.ok subJson1)
        (sub0.updated subJson1 (some ⟨100⟩) none none none (.bool true)
          (.str "active") 1500)
      = .ok (false, sub0.updated subJson1 (some ⟨100⟩) none none none
          (.bool true) (.str "active") 1500)
      ∧ (true = true ↔ (sub0.changed = none ∨
          ∃ t, sub0.changed = some t ∧ t.ms < 1500))) :=
  synchronize_twice_amended order0 orderJson1 1000
    (.str "ref1") (.str "inv1") (.bool true) rfl rfl rfl rfl
    true (order0.updated orderJson1 (.str "ref1") (.str "inv1") (.bool true) 1000)
    rfl
    sub0 subJson1 1500 (.num 100) .null .null (.bool true) (.str "active")
    (some ⟨100⟩) none none none .null
    rfl rfl rfl rfl rfl rfl rfl rfl rfl rfl rfl
    true (sub0.updated subJson1 (some ⟨100⟩) none none none (.bool true)
      (.str "active") 1500)
    rfl

theorem collect_eq_filter (items : List Json)
    (hobj : ∀ it ∈ items, ∃ kvs, it = Json.obj kvs) :
    OrderMixin.collectCandidates items = .ok (items.filter isSubscriptionFlagged) := by
  induction items with
  | nil => rfl
  | cons it rest ih =>
    obtain ⟨kvs, hk⟩ := hobj it (by simp)
    subst hk
    have ih2 := ih (fun x hx => hobj x (by simp [hx]))
    unfold OrderMixin.collectCandidates
    rw [ih2]
    simp [dictGet, isSubscriptionFlagged, List.filter]
    split <;> simp_all

/-- C5: when the order's `items` list holds exactly one line item whose
`subscription` flag is truthy, `subscription_item` returns that item;
with zero or two-or-more such items it returns `None`. -/
theorem subscription_item_unique (self : OrderRec) (d : Json) (items : List Json)
    (hd : self.data = some d)
    (hitems : jgetItem d "items" = .ok (.arr items))
    (hobj : ∀ it ∈ items, ∃ kvs, it = Json.obj kvs) :
    OrderMixin.subscription_item self =
      .ok (match items.filter isSubscriptionFlagged with
        | [x] => some x
        | _ => none) := by
  unfold OrderMixin.subscription_item
  simp only [hd, hitems, pyIter]
  rw [collect_eq_filter items hobj]
  rcases hf : items.filter isSubscriptionFlagged with _ | ⟨x, _ | ⟨y, rest⟩⟩ <;> simp

theorem subscription_item_unique_witness :
    OrderMixin.subscription_item
        ⟨"o1", none, none, none, none,
          some (.obj [("items", .arr [itemPlain, itemSub, itemPlain])])⟩ =
      .ok (match [itemPlain, itemSub, itemPlain].filter isSubscriptionFlagged with
        | [x] => some x
        | _ => none) :=
  subscription_item_unique
    ⟨"o1", none, none, none, none,
      some (.obj [("items", .arr [itemPlain, itemSub, itemPlain])])⟩
    (.obj [("items", .arr [itemPlain, itemSub, itemPlain])])
    [itemPlain, itemSub, itemPlain] rfl rfl
    (by intro it hit
        simp only [List.mem_cons, List.not_mem_nil, or_false] at hit
        rcases hit with h | h | h <;> subst h
        · exact ⟨[("product", .str "p")], rfl⟩
        · exact ⟨[("subscription", .str "sub1")], rfl⟩
        · exact ⟨[("product", .str "p")], rfl⟩)

/-- C6: `milliseconds_to_datetime` maps `None`/JSON `null` (which also
stands for an absent key read through `.get`) to `None` — never to the
epoch — and maps an integer `m` to the absolute UTC instant `m`
milliseconds after the epoch; consequently a subscription snapshot
passing the gate with `next`, `nextChargeDate` and `end` absent leaves
`next_event`, `next_charge` and `end_at` unset on the merged record. -/
theorem milliseconds_null_and_absent_fields
    (m : Int) (sub : SubscriptionRec) (sdata : Json) (c : Int)
    (bv av sv : Json) (bm : Option Datetime)
    (hch : jgetItem sdata "changed" = .ok (.num c))
    (hbeg : jgetItem sdata "begin" = .ok bv)
    (hbm : milliseconds_to_datetime bv = .ok bm)
    (hnext : dictGet sdata "next" = .ok .null)
    (hcharge : dictGet sdata "nextChargeDate" = .ok .null)
    (hend : dictGet sdata "end" = .ok .null)
    (hact : jgetItem sdata "active" = .ok av)
    (hstate : jgetItem sdata "state" = .ok sv)
    (hgate : sub.changed = none) :
    milliseconds_to_datetime .null = .ok none
  ∧ (∀ d : Datetime, milliseconds_to_datetime .null ≠ .ok (some d))
  ∧ milliseconds_to_datetime (.num m) = .ok (some (Datetime.mk m))
  ∧ SubscriptionMixin.synchronize (.ok sdata) sub =
      .ok (true, sub.updated sdata bm none none none av sv c)
  ∧ (sub.updated sdata bm none none none av sv c).next_event = none
  ∧ (sub.updated sdata bm none none none av sv c).next_charge = none
  ∧ (sub.updated sdata bm none none none av sv c).end_at = none := by
  refine ⟨rfl, ?_, rfl, ?_, rfl, rfl, rfl⟩
  · intro d h
    cases h
  · rw [sub_sync_eq sub sdata c bv .null .null av sv bm none none none .null
      hch hbeg hbm hnext rfl hcharge rfl hend rfl hact hstate]
    rw [hgate]

theorem milliseconds_null_and_absent_fields_witness :
    milliseconds_to_datetime .null = .ok none
  ∧ (∀ d : Datetime, milliseconds_to_datetime .null ≠ .ok (some d))
  ∧ milliseconds_to_datetime (.num 42) = .ok (some (Datetime.mk 42))
  ∧ SubscriptionMixin.synchronize (.ok subJson1) sub0 =
      .ok (true, sub0.updated subJson1 (some ⟨100⟩) none none none
        (.bool true) (.str "active") 1500)
  ∧ (sub0.updated subJson1 (some ⟨100⟩) none none none (.bool true)
      (.str "active") 1500).next_event = none
  ∧ (sub0.updated subJson1 (some ⟨100⟩) none none none (.bool true)
      (.str "active") 1500).next_charge = none
  ∧ (sub0.updated subJson1 (some ⟨100⟩) none none none (.bool true)
      (.str "active") 1500).end_at = none :=
  milliseconds_null_and_absent_fields 42 sub0 subJson1 1500 (.num 100)
    (.bool true) (.str "active") (some ⟨100⟩)
    rfl rfl rfl rfl rfl rfl rfl rfl rfl

theorem dtLE_refl (a : Option Datetime) : dtLE a a := by
  cases a <;> simp [dtLE]

theorem dtLE_trans (a b c : Option Datetime) (h1 : dtLE a b) (h2 : dtLE b c) :
    dtLE a c := by
  cases a <;> cases b <;> cases c <;> simp_all [dtLE] <;> omega

theorem order_assign_changed (data : Json) (ch : Option Datetime) (self : OrderRec) :
    (match OrderMixin.assign data ch self with
      | .ok (_, r) => r.changed = ch
      | .error (_, r) => r.changed = self.changed ∨ r.changed = ch) := by
  unfold OrderMixin.assign
  rcases jgetItem data "reference" with e | rv
  · simp
  rcases jgetItem data "invoiceUrl" with e | iv
  · simp
  rcases jgetItem data "completed" with e | cv
  · simp
  simp

theorem sub_assign_changed (data : Json) (ch : Option Datetime)
    (self : SubscriptionRec) :
    (match SubscriptionMixin.assign data ch self with
      | .ok (_, s) => s.changed = ch
      | .error (_, s) => s.changed = self.changed ∨ s.changed = ch) := by
  unfold SubscriptionMixin.assign
  split <;> rename_i fst r heq <;> (repeat' split at heq) <;> cases heq <;> simp

theorem order_assign_ok_changed (data : Json) (ch : Option Datetime)
    (r : OrderRec) (b : Bool) (r2 : OrderRec)
    (h : OrderMixin.assign data ch r = .ok (b, r2)) : r2.changed = ch := by
  have hx := order_assign_changed data ch r
  rw [h] at hx
  exact hx

theorem order_assign_error_changed (data : Json) (ch : Option Datetime)
    (r : OrderRec) (e : PyErr) (r2 : OrderRec)
    (h : OrderMixin.assign data ch r = .error (e, r2)) :
    r2.changed = r.changed ∨ r2.changed = ch := by
  have hx := order_assign_changed data ch r
  rw [h] at hx
  exact hx

theorem order_sync_changed (fetched : Except PyErr Json) (r : OrderRec) :
    (match OrderMixin.synchronize fetched r with
      | .ok (_, r2) => dtLE r.changed r2.changed
      | .error (_, r2) => dtLE r.changed r2.changed) := by
  unfold OrderMixin.synchronize
  split <;> rename_i fst r2 heq <;> repeat' split at heq
  all_goals try cases heq
  all_goals try exact dtLE_refl _
  all_goals try simp_all [dtLE]
  all_goals
    first
    | (have ha := order_assign_ok_changed _ _ _ _ _ heq
       simp_all [dtLE]
       omega)
    | (have ha := order_assign_error_changed _ _ _ _ _ heq
       rcases ha with ha | ha <;> simp_all [dtLE] <;> omega)

theorem sub_assign_ok_changed (data : Json) (ch : Option Datetime)
    (s : SubscriptionRec) (b : Bool) (s2 : SubscriptionRec)
    (h : SubscriptionMixin.assign data ch s = .ok (b, s2)) : s2.changed = ch := by
  have hx := sub_assign_changed data ch s
  rw [h] at hx
  exact hx

theorem sub_assign_error_changed (data : Json) (ch : Option Datetime)
    (s : SubscriptionRec) (e : PyErr) (s2 : SubscriptionRec)
    (h : SubscriptionMixin.assign data ch s = .error (e, s2)) :
    s2.changed = s.changed ∨ s2.changed = ch := by
  have hx := sub_assign_changed data ch s
  rw [h] at hx
  exact hx

theorem sub_sync_changed (fetched : Except PyErr Json) (s : SubscriptionRec) :
    (match SubscriptionMixin.synchronize fetched s with
      | .ok (_, s2) => dtLE s.changed s2.changed
      | .error (_, s2) => dtLE s.changed s2.changed) := by
  unfold SubscriptionMixin.synchronize
  split <;> rename_i fst s2 heq <;> repeat' split at heq
  all_goals try cases heq
  all_goals try exact dtLE_refl _
  all_goals try simp_all [dtLE]
  all_goals
    first
    | (have ha := sub_assign_ok_changed _ _ _ _ _ heq
       simp_all [dtLE]
       omega)
    | (have ha := sub_assign_error_changed _ _ _ _ _ heq
       rcases ha with ha | ha <;> simp_all [dtLE] <;> omega)

theorem applyOrder_mono (j : Except PyErr Json) (r : OrderRec) :
    dtLE r.changed (applyOrder j r).changed := by
  have h := order_sync_changed j r
  unfold applyOrder
  rcases hs : OrderMixin.synchronize j r with ⟨e, r2⟩ | ⟨b, r2⟩ <;>
    rw [hs] at h <;> simpa using h

theorem applySub_mono (j : Except PyErr Json) (s : SubscriptionRec) :
    dtLE s.changed (applySub j s).changed := by
  have h := sub_sync_changed j s
  unfold applySub
  rcases hs : SubscriptionMixin.synchronize j s with ⟨e, s2⟩ | ⟨b, s2⟩ <;>
    rw [hs] at h <;> simpa using h

theorem chainOrder_mono (l : List (Except PyErr Json)) (r : OrderRec) :
    dtLE r.changed (chainOrder r l).changed := by
  induction l generalizing r with
  | nil => exact dtLE_refl _
  | cons j rest ih =>
    have h1 := applyOrder_mono j r
    have h2 := ih (applyOrder j r)
    exact dtLE_trans _ _ _ h1 h2

theorem chainSub_mono (l : List (Except PyErr Json)) (s : SubscriptionRec) :
    dtLE s.changed (chainSub s l).changed := by
  induction l generalizing s with
  | nil => exact dtLE_refl _
  | cons j rest ih =>
    have h1 := applySub_mono j s
    have h2 := ih (applySub j s)
    exact dtLE_trans _ _ _ h1 h2

theorem order_assign_ok {data : Json} {ch : Option Datetime} {r : OrderRec}
    {b : Bool} {r2 : OrderRec}
    (h : OrderMixin.assign data ch r = .ok (b, r2)) :
    b = true ∧ r2.changed = ch := by
  unfold OrderMixin.assign at h
  repeat' split at h
  all_goals cases h
  all_goals exact ⟨rfl, rfl⟩

theorem sub_assign_ok {data : Json} {ch : Option Datetime} {s : SubscriptionRec}
    {b : Bool} {s2 : SubscriptionRec}
    (h : SubscriptionMixin.assign data ch s = .ok (b, s2)) :
    b = true ∧ s2.changed = ch := by
  unfold SubscriptionMixin.assign at h
  repeat' split at h
  all_goals cases h
  all_goals exact ⟨rfl, rfl⟩

theorem order_sync_ok (fetched : Except PyErr Json) (r : OrderRec) (b : Bool)
    (r2 : OrderRec) (h : OrderMixin.synchronize fetched r = .ok (b, r2)) :
    (b = false → r2 = r) ∧ (b = true → remoteInstant fetched = .ok r2.changed) := by
  unfold OrderMixin.synchronize at h
  repeat' split at h
  all_goals try cases h
  all_goals try exact ⟨fun _ => rfl, fun hb => by cases hb⟩
  all_goals
    obtain ⟨hb, hch⟩ := order_assign_ok h
  all_goals subst hb
  all_goals refine ⟨fun hf => (nomatch hf), fun _ => ?_⟩
  all_goals simp_all [remoteInstant]

theorem sub_sync_ok (fetched : Except PyErr Json) (s : SubscriptionRec) (b : Bool)
    (s2 : SubscriptionRec) (h : SubscriptionMixin.synchronize fetched s = .ok (b, s2)) :
    (b = false → s2 = s) ∧ (b = true → remoteInstant fetched = .ok s2.changed) := by
  unfold SubscriptionMixin.synchronize at h
  repeat' split at h
  all_goals try cases h
  all_goals try exact ⟨fun _ => rfl, fun hb => by cases hb⟩
  all_goals
    obtain ⟨hb, hch⟩ := sub_assign_ok h
  all_goals subst hb
  all_goals refine ⟨fun hf => (nomatch hf), fun _ => ?_⟩
  all_goals simp_all [remoteInstant]

/-- C8: across any sequence of `synchronize` calls on the same record —
returning or raising, order or subscription — the local `changed`
watermark never decreases; moreover a returning call either returns
`false` having mutated nothing at all, or returns `true` having set
`changed` to the remote snapshot's converted instant. -/
theorem changed_watermark_monotonic
    (r : OrderRec) (l : List (Except PyErr Json))
    (s : SubscriptionRec) (ls : List (Except PyErr Json))
    (j js : Except PyErr Json) (b bs : Bool) (r2 : OrderRec)
    (s2 : SubscriptionRec)
    (hok : OrderMixin.synchronize j r = .ok (b, r2))
    (hoks : SubscriptionMixin.synchronize js s = .ok (bs, s2)) :
    dtLE r.changed (chainOrder r l).changed
  ∧ dtLE s.changed (chainSub s ls).changed
  ∧ (b = false → r2 = r)
  ∧ (b = true → remoteInstant j = .ok r2.changed)
  ∧ (bs = false → s2 = s)
  ∧ (bs = true → remoteInstant js = .ok s2.changed) :=
  ⟨chainOrder_mono l r, chainSub_mono ls s,
   (order_sync_ok j r b r2 hok).1, (order_sync_ok j r b r2 hok).2,
   (sub_sync_ok js s bs s2 hoks).1, (sub_sync_ok js s bs s2 hoks).2⟩

theorem changed_watermark_monotonic_witness :
    dtLE order0.changed (chainOrder order0 [.ok orderJson1]).changed
  ∧ dtLE sub0.changed (chainSub sub0 [.ok subJson1]).changed
  ∧ (true = false → order0.updated orderJson1 (.str "ref1") (.str "inv1")
      (.bool true) 1000 = order0)
  ∧ (true = true → remoteInstant (.ok orderJson1) =
      .ok (order0.updated orderJson1 (.str "ref1") (.str "inv1")
        (.bool true) 1000).changed)
  ∧ (true = false → sub0.updated subJson1 (some ⟨100⟩) none none none
      (.bool true) (.str "active") 1500 = sub0)
  ∧ (true = true → remoteInstant (.ok subJson1) =
      .ok (sub0.updated subJson1 (some ⟨100⟩) none none none
        (.bool true) (.str "active") 1500).changed) :=
  changed_watermark_monotonic order0 [.ok orderJson1] sub0 [.ok subJson1]
    (.ok orderJson1) (.ok subJson1) true true
    (order0.updated orderJson1 (.str "ref1") (.str "inv1") (.bool true) 1000)
    (sub0.updated subJson1 (some ⟨100⟩) none none none (.bool true)
      (.str "active") 1500)
    rfl rfl

/-- C10: both `synchronize` methods perform the fetch and the `changed`
extraction before any assignment, so a fetch that raises (e.g.
`APIError`) or a remote JSON lacking the mandatory `changed` key
propagates an exception with the local record completely unchanged. -/
theorem synchronize_atomic_on_errors
    (e : PyErr) (r : OrderRec) (s : SubscriptionRec)
    (kvs kvs2 : List (String × Json))
    (hno : kvs.lookup "changed" = none)
    (hno2 : kvs2.lookup "changed" = none) :
    OrderMixin.synchronize (.error e) r = .error (e, r)
  ∧ SubscriptionMixin.synchronize (.error e) s = .error (e, s)
  ∧ OrderMixin.synchronize (.ok (.obj kvs)) r = .error (.keyError "changed", r)
  ∧ SubscriptionMixin.synchronize (.ok (.obj kvs2)) s
      = .error (.keyError "changed", s) := by
  refine ⟨rfl, rfl, ?_, ?_⟩
  · unfold OrderMixin.synchronize
    simp [jgetItem, hno]
  · unfold SubscriptionMixin.synchronize
    simp [jgetItem, hno2]

theorem synchronize_atomic_on_errors_witness :
    OrderMixin.synchronize (.error (.apiError ⟨⟨"GET", "u", 500, "err", none⟩⟩))
        order0 = .error (.apiError ⟨⟨"GET", "u", 500, "err", none⟩⟩, order0)
  ∧ SubscriptionMixin.synchronize
        (.error (.apiError ⟨⟨"GET", "u", 500, "err", none⟩⟩)) sub0
      = .error (.apiError ⟨⟨"GET", "u", 500, "err", none⟩⟩, sub0)
  ∧ OrderMixin.synchronize (.ok (.obj [("reference", .str "x")])) order0
      = .error (.keyError "changed", order0)
  ∧ SubscriptionMixin.synchronize (.ok (.obj [("reference", .str "x")])) sub0
      = .error (.keyError "changed", sub0) :=
  synchronize_atomic_on_errors (.apiError ⟨⟨"GET", "u", 500, "err", none⟩⟩)
    order0 sub0 [("reference", .str "x")] [("reference", .str "x")] rfl rfl
